import Mathlib

/-!
# Verification of the session-authentication core of auth-test-astro-netlify

Shallow embedding of the repository's authentication subsystem:

* `src/src/utils/auth.ts` — JWT issuance (`generateToken`), verification
  (`verifyToken`), password comparison (`authenticatePassword`), and the
  session-credential helper (`createAuthToken`).  Embedded in namespace `Auth`.
* `src/unnamed/part_000` — a documented variant of the same utilities whose
  `verifyToken` pins the algorithm list to HS256 only.  Embedded in namespace
  `AuthDoc`.
* `src/src/middleware.ts` — the route gate (`onRequest`).
* `src/netlify/functions/authenticate.ts` — the login endpoint (`handler`).

The `jsonwebtoken` library calls (`jwt.sign`, `jwt.verify`) are embedded as
`jwtSign` and `jwtVerify`.  Token strings are modelled by `TokenString`: a
string either fails JWT parsing (`malformed`) or decodes to a structured JWT
(`token`).  The HMAC signature is modelled symbolically: a signature value is
identified with the triple (algorithm, key, signed payload) it commits to,
which encodes exactly the unforgeability assumption of HMAC.  Times are in
seconds, the unit `jsonwebtoken` uses for the `iat`/`exp` claims.
-/

namespace AuthAstro

/-- JWT signing algorithms relevant to the `jsonwebtoken` library: the
HMAC-SHA-2 family, two representative asymmetric algorithms and the unsigned
`noAlg` (the JWT "none" algorithm). -/
inductive Alg where
  | HS256
  | HS384
  | HS512
  | RS256
  | ES256
  | noAlg
  deriving DecidableEq, Repr

/-- A decoded JWT payload: the free-form claim contents (modelled as
string-to-string entries), plus the registered `iat` and optional `exp`
claims, in whole seconds as `jsonwebtoken` writes them. -/
structure Payload where
  claims : List (String × String)
  iat : Nat
  exp : Option Nat
  deriving DecidableEq, Repr

/-- A symbolic HMAC signature: a signature value is identified with the
algorithm, key and payload it was produced over.  Signature verification is
then definitional equality, which models HMAC verification under the standard
unforgeability assumption (a signature verifies under a key if and only if it
was produced with that key over exactly that content). -/
structure Sig where
  alg : Alg
  key : String
  signedPayload : Payload
  deriving DecidableEq, Repr

/-- A decoded JWT: header algorithm, payload, and an optional signature part
(`none` models an empty signature segment, as in "none"-algorithm tokens). -/
structure Jwt where
  alg : Alg
  payload : Payload
  sig : Option Sig
  deriving DecidableEq, Repr

/-- A candidate token string, as fed to `jwt.verify`: either a string that
does not decode as a JWT at all (empty, truncated, garbage), or a decoded
JWT. -/
inductive TokenString where
  | malformed (s : String)
  | token (t : Jwt)
  deriving DecidableEq, Repr

/-- The errors `jwt.verify` can throw: `JsonWebTokenError` for malformed
input, missing signature, disallowed algorithm or bad signature, and
`TokenExpiredError` for an expired token. -/
inductive VerifyError where
  | jsonWebTokenError (msg : String)
  | tokenExpiredError
  deriving DecidableEq, Repr

/-- Embedding of `jsonwebtoken`'s `jwt.verify(token, key)` with an allowed
algorithm list `algs` and clock reading `now` (seconds).  Mirrors the
library's check order: decode, signature presence (a key is always supplied
by this repository), allowed algorithm, signature verification, then expiry.
Expiry fails when `now >= exp` (zero clock tolerance), i.e. the token is
live strictly before `exp`. -/
def jwtVerify (input : TokenString) (key : String) (algs : List Alg) (now : Nat) :
    Except VerifyError Payload :=
  match input with
  | .malformed _ => .error (.jsonWebTokenError "jwt malformed")
  | .token t =>
    match t.sig with
    | none => .error (.jsonWebTokenError "jwt signature is required")
    | some s =>
      if t.alg ∈ algs then
        if s = ⟨t.alg, key, t.payload⟩ then
          match t.payload.exp with
          | some e => if e ≤ now then .error .tokenExpiredError else .ok t.payload
          | none => .ok t.payload
        else .error (.jsonWebTokenError "invalid signature")
      else .error (.jsonWebTokenError "invalid algorithm")

/-- The algorithms `jwt.verify` accepts by default when the key is a secret
string and no `algorithms` option is passed: the HMAC-SHA-2 family. -/
def hmacAlgs : List Alg := [.HS256, .HS384, .HS512]

/-- Embedding of `jwt.sign(payload, key)` as called in this repository: the
`expiresIn` option is always the string for 24 hours, so the signed payload
gets `iat = now` and `exp = now + 86400`; the signature is produced with
algorithm `alg` over that payload under `key`. -/
def jwtSign (claims : List (String × String)) (key : String) (alg : Alg) (now : Nat) : Jwt :=
  let p : Payload := ⟨claims, now, some (now + 86400)⟩
  ⟨alg, p, some ⟨alg, key, p⟩⟩

/-- The header algorithm of a token string, when it decodes to a JWT. -/
def TokenString.algOf : TokenString → Option Alg
  | .malformed _ => none
  | .token t => some t.alg

/-! ## `src/src/utils/auth.ts` -/

namespace Auth

/-- Development fallback for the signing key (`JWT_SECRET`). -/
def defaultSecret : String := "your-secret-key-change-in-production"

/-- Development fallback for the shared password (`PROTECTED_PASSWORD`). -/
def defaultPassword : String := "admin123"

/-- `JWT_SECRET = process.env.JWT_SECRET || fallback`.  JavaScript `||` also
falls back when the environment variable is the empty string. -/
def jwtSecret (env : Option String) : String :=
  match env with
  | some s => if s = "" then defaultSecret else s
  | none => defaultSecret

/-- `PROTECTED_PASSWORD = process.env.PROTECTED_PASSWORD || fallback`. -/
def protectedPassword (env : Option String) : String :=
  match env with
  | some s => if s = "" then defaultPassword else s
  | none => defaultPassword

/-- `generateToken(payload)` from `src/src/utils/auth.ts`: `jwt.sign` with a
24-hour `expiresIn` and no explicit algorithm, which `jsonwebtoken` defaults
to HS256 for a string secret.  `secret` is the resolved `JWT_SECRET` and
`now` the clock reading at issuance. -/
def generateToken (claims : List (String × String)) (secret : String) (now : Nat) : TokenString :=
  .token (jwtSign claims secret .HS256 now)

/-- `verifyToken(token)` from `src/src/utils/auth.ts`: `jwt.verify(token,
JWT_SECRET)` inside try/catch, returning `true` on success and `false` on any
thrown error.  No `algorithms` option is passed, so `jsonwebtoken` allows the
whole HMAC family for the string secret. -/
def verifyToken (token : TokenString) (secret : String) (now : Nat) : Bool :=
  match jwtVerify token secret hmacAlgs now with
  | .ok _ => true
  | .error _ => false

/-- `authenticatePassword(password)`: exact string equality against the
resolved `PROTECTED_PASSWORD` (here the `configured` argument). -/
def authenticatePassword (password : String) (configured : String) : Bool :=
  password == configured

/-- `createAuthToken()`: issues the fixed session payload with the
`authenticated` flag and an issuance timestamp claim, via `generateToken`. -/
def createAuthToken (secret : String) (now : Nat) : TokenString :=
  generateToken [("authenticated", "true"), ("timestamp", toString now)] secret now

end Auth

/-! ## `src/unnamed/part_000` (documented variant of the auth utilities) -/

namespace AuthDoc

/-- `generateToken` from `src/unnamed/part_000`: identical to the plain
variant except that the HS256 algorithm is pinned explicitly on the sign
call (the same algorithm the default produces). -/
def generateToken (claims : List (String × String)) (secret : String) (now : Nat) : TokenString :=
  .token (jwtSign claims secret .HS256 now)

/-- `verifyToken` from `src/unnamed/part_000`: `jwt.verify` with the
`algorithms` option pinned to the singleton HS256 list, inside try/catch,
collapsing every thrown error to `false`. -/
def verifyToken (token : TokenString) (secret : String) (now : Nat) : Bool :=
  match jwtVerify token secret [.HS256] now with
  | .ok _ => true
  | .error _ => false

end AuthDoc

/-! ## `src/src/middleware.ts` -/

/-- The externally observable decision of the middleware: forward the request
to the next handler, or issue a redirect to a location. -/
inductive GateDecision where
  | forward
  | redirect (location : String)
  deriving DecidableEq, Repr

/-- Outcome of one middleware run: the decision plus whether the middleware
deleted the `auth-token` cookie on the way. -/
structure GateOutcome where
  decision : GateDecision
  cookieDeleted : Bool
  deriving DecidableEq, Repr

/-- JavaScript's `String.prototype.startsWith`, modelled as a prefix test on
the character sequence. -/
def strStartsWith (s pre : String) : Bool := pre.data.isPrefixOf s.data

/-- `onRequest` from `src/src/middleware.ts`.  `cookie` is the value of the
`auth-token` cookie when present.  A path starting with the literal prefix
is protected: no cookie redirects to `/login` without touching anything; a
cookie whose value fails `verifyToken` is deleted before the redirect; a
verified cookie lets the request through untouched.  Every other path is
forwarded untouched.  `Auth.verifyToken` is total, so the defensive
try/catch around the verification call in the source has no separate
branch here. -/
def onRequest (pathname : String) (cookie : Option TokenString) (secret : String) (now : Nat) :
    GateOutcome :=
  if strStartsWith pathname "/projects/" then
    match cookie with
    | none => ⟨.redirect "/login", false⟩
    | some tok =>
      if Auth.verifyToken tok secret now then ⟨.forward, false⟩
      else ⟨.redirect "/login", true⟩
  else ⟨.forward, false⟩

/-! ## `src/netlify/functions/authenticate.ts` -/

/-- A JSON value, as far as the handler can observe one in the `password`
field of the parsed body. -/
inductive JsonValue where
  | null
  | bool (b : Bool)
  | num (n : Int)
  | str (s : String)
  deriving DecidableEq, Repr

/-- JavaScript truthiness of a JSON value: `null`, `false`, `0` and the
empty string are falsy. -/
def jsTruthy : JsonValue → Bool
  | .null => false
  | .bool b => b
  | .num n => n != 0
  | .str s => s != ""

/-- The outcome the handler observes from `JSON.parse` applied to
`event.body` (with the JavaScript `or`-default of the empty object literal
for a missing or empty body) followed by destructuring the `password` field:
either some step of that pipeline threw, or it produced the `password` field
(`none` when the field is absent — in particular for a missing or empty
body, since the empty object literal parses to an object with no fields). -/
inductive ParsedBody where
  | parseError
  | object (password : Option JsonValue)
  deriving DecidableEq, Repr

/-- The slice of a Netlify `HandlerResponse` the specification talks about:
the status code, and the issued credential when the response carries one. -/
structure HandlerResponse where
  statusCode : Nat
  token : Option TokenString
  deriving DecidableEq, Repr

/-- `handler` from `src/netlify/functions/authenticate.ts`.  Non-POST
methods get 405.  Inside the try block: a thrown parse (or destructuring)
error falls to the catch and yields 500; a falsy `password` field yields
400; a truthy password is compared by strict equality against the
configured password (a non-string JSON value is never strictly equal to a
string), yielding 401 on mismatch and 200 with a fresh `createAuthToken`
credential on match. -/
def handler (httpMethod : String) (body : ParsedBody) (configuredPassword : String)
    (secret : String) (now : Nat) : HandlerResponse :=
  if httpMethod ≠ "POST" then ⟨405, none⟩
  else
    match body with
    | .parseError => ⟨500, none⟩
    | .object pw =>
      let password := pw.getD .null
      if jsTruthy password then
        let ok : Bool :=
          match password with
          | .str s => Auth.authenticatePassword s configuredPassword
          | _ => false
        if ok then ⟨200, some (Auth.createAuthToken secret now)⟩
        else ⟨401, none⟩
      else ⟨400, none⟩

/-- The body-parsing pipeline feeding `handler`: `event.body` defaulted with
JavaScript `or` to the empty object literal, then `JSON.parse`.  A missing or
empty (falsy) body string becomes the empty object literal, which parses to
an object with no `password` field; any other body string is parsed by the
external JSON parser, modelled by the oracle `parseOf`. -/
def parseBody (body : Option String) (parseOf : String → ParsedBody) : ParsedBody :=
  match body with
  | none => .object none
  | some s => if s = "" then .object none else parseOf s

/-! ## Characterization of verification -/

/-- The success condition of `jwtVerify`: the input decodes to a JWT whose
algorithm is in the allowed list, whose signature was produced with `key`
over exactly its own payload under its own header algorithm, and whose
expiry (when present) is strictly in the future. -/
def acceptedBy (input : TokenString) (key : String) (algs : List Alg) (now : Nat) : Prop :=
  ∃ t : Jwt, input = .token t ∧ t.alg ∈ algs ∧
    t.sig = some ⟨t.alg, key, t.payload⟩ ∧
    ∀ e, t.payload.exp = some e → now < e

/-- A validly-signed, unexpired token in the sense of
`src/src/utils/auth.ts`: accepted under the default HMAC-family algorithm
list. -/
def validlySignedUnexpired (input : TokenString) (secret : String) (now : Nat) : Prop :=
  acceptedBy input secret hmacAlgs now

lemma jwtVerify_ok_iff (input : TokenString) (key : String) (algs : List Alg) (now : Nat) :
    (∃ p, jwtVerify input key algs now = .ok p) ↔ acceptedBy input key algs now := by
  unfold acceptedBy
  cases input with
  | malformed s => simp [jwtVerify]
  | token t =>
    rcases t with ⟨alg, payload, sig⟩
    cases sig with
    | none => simp [jwtVerify]
    | some s =>
      by_cases halg : alg ∈ algs
      · by_cases hs : s = ⟨alg, key, payload⟩
        · subst hs
          rcases payload with ⟨claims, iat, exp⟩
          cases exp with
          | none => simp [jwtVerify, halg]
          | some e =>
            by_cases he : e ≤ now
            · simp only [jwtVerify, halg, if_true, he, reduceIte]
              constructor
              · rintro ⟨p, hp⟩; exact absurd hp (by simp)
              · rintro ⟨t, ht, -, -, hlive⟩
                cases ht
                exact absurd (hlive e rfl) (by omega)
            · simp [jwtVerify, halg, he]
              omega
        · simp [jwtVerify, halg, hs]
      · simp [jwtVerify, halg]

lemma verifyToken_true_iff (input : TokenString) (secret : String) (now : Nat) :
    Auth.verifyToken input secret now = true ↔ validlySignedUnexpired input secret now := by
  rw [validlySignedUnexpired, ← jwtVerify_ok_iff]
  unfold Auth.verifyToken
  cases h : jwtVerify input secret hmacAlgs now <;> simp [h]

lemma verifyTokenDoc_true_iff (input : TokenString) (secret : String) (now : Nat) :
    AuthDoc.verifyToken input secret now = true ↔ acceptedBy input secret [.HS256] now := by
  rw [← jwtVerify_ok_iff]
  unfold AuthDoc.verifyToken
  cases h : jwtVerify input secret [.HS256] now <;> simp [h]

lemma verifyToken_generateToken_true_iff (c : List (String × String)) (secret : String)
    (T u : Nat) :
    Auth.verifyToken (Auth.generateToken c secret T) secret u = true ↔ u < T + 86400 := by
  rw [verifyToken_true_iff]
  constructor
  · rintro ⟨tk, htk, -, -, hlive⟩
    simp only [Auth.generateToken, TokenString.token.injEq] at htk
    subst htk
    exact hlive (T + 86400) (by simp [jwtSign])
  · intro hu
    refine ⟨jwtSign c secret .HS256 T, rfl, by simp [jwtSign, hmacAlgs], by simp [jwtSign], ?_⟩
    intro e he
    simp only [jwtSign, Option.some.injEq] at he
    omega

/-! ## Claims -/

/-- C1: Round-trip issuance/verification: for every claims mapping `c`,
verifying a credential immediately after it is issued with the configured
signing key returns true (`verifyToken` of `generateToken c`, evaluated at
the issuance time with the same `JWT_SECRET` on both sides). -/
theorem roundtrip_issue_verify (c : List (String × String)) (secret : String) (T : Nat) :
    Auth.verifyToken (Auth.generateToken c secret T) secret T = true :=
  (verifyToken_generateToken_true_iff c secret T T).mpr (by omega)

/-- C2: 24-hour validity window with strict upper bound: a credential issued
at time `T` verifies as true at any time in the window from `T` up to but
excluding `T + 86400` seconds, verifies as false at `T + 86400 + ε` for every
positive `ε`, and more precisely verifies as true exactly when the evaluation
clock is strictly below `T + 86400` — so expiry is the only deactivation
mechanism of an issued credential. -/
theorem validity_window (c : List (String × String)) (secret : String) (T t ε : Nat) :
    (T ≤ t → t < T + 86400 →
      Auth.verifyToken (Auth.generateToken c secret T) secret t = true) ∧
    (0 < ε →
      Auth.verifyToken (Auth.generateToken c secret T) secret (T + 86400 + ε) = false) ∧
    (Auth.verifyToken (Auth.generateToken c secret T) secret t = true ↔ t < T + 86400) := by
  refine ⟨fun _ hlt => (verifyToken_generateToken_true_iff c secret T t).mpr hlt,
    fun hε => ?_, verifyToken_generateToken_true_iff c secret T t⟩
  rw [Bool.eq_false_iff]
  intro htrue
  have := (verifyToken_generateToken_true_iff c secret T (T + 86400 + ε)).mp htrue
  omega

theorem validity_window_witness :
    Auth.verifyToken (Auth.generateToken [] "k" 0) "k" 86399 = true ∧
    Auth.verifyToken (Auth.generateToken [] "k" 0) "k" (0 + 86400 + 1) = false := by
  have h := validity_window [] "k" 0 86399 1
  exact ⟨h.1 (by omega) (by omega), h.2.1 (by omega)⟩

/-- C3: Verification totality and normalization: every input that is not a
validly-signed unexpired token — malformed strings (including the empty and
truncated ones), tokens signed with a different key, expired tokens —
verifies as false.  `verifyToken` is a total Boolean-valued function in this
embedding because the source wraps `jwt.verify` in try/catch and returns
`false` from the catch arm, so no parse, signature or expiry failure ever
reaches the caller as an exception. -/
theorem verify_totality (input : TokenString) (secret : String) (now : Nat)
    (h : ¬ validlySignedUnexpired input secret now) :
    Auth.verifyToken input secret now = false := by
  rw [Bool.eq_false_iff]
  intro htrue
  exact h ((verifyToken_true_iff input secret now).mp htrue)

theorem verify_totality_witness :
    Auth.verifyToken (.malformed "") Auth.defaultSecret 0 = false := by
  refine verify_totality (.malformed "") Auth.defaultSecret 0 ?_
  intro hv
  unfold validlySignedUnexpired acceptedBy at hv
  obtain ⟨t, ht, -⟩ := hv
  exact TokenString.noConfusion ht

/-- C10: Payload noninterference: the result of `verifyToken` depends only on
the token's signature validity and expiry, never on the claim contents — two
tokens correctly signed with the same key and algorithm and carrying the same
expiry verify identically, whatever their claims and `iat` are; in
particular, a correctly signed unexpired token with an empty claim set (so
without the `authenticated` flag) still verifies as true. -/
theorem payload_noninterference (cl1 cl2 : List (String × String)) (iat1 iat2 : Nat)
    (e : Option Nat) (a : Alg) (secret : String) (now anExp : Nat) :
    (Auth.verifyToken (.token ⟨a, ⟨cl1, iat1, e⟩, some ⟨a, secret, ⟨cl1, iat1, e⟩⟩⟩) secret now =
      Auth.verifyToken (.token ⟨a, ⟨cl2, iat2, e⟩, some ⟨a, secret, ⟨cl2, iat2, e⟩⟩⟩) secret now) ∧
    (now < anExp →
      Auth.verifyToken
        (.token ⟨.HS256, ⟨[], iat1, some anExp⟩, some ⟨.HS256, secret, ⟨[], iat1, some anExp⟩⟩⟩)
        secret now = true) := by
  constructor
  · cases e with
    | none =>
      unfold Auth.verifyToken jwtVerify
      by_cases ha : a ∈ hmacAlgs <;> simp [ha]
    | some e' =>
      unfold Auth.verifyToken jwtVerify
      by_cases ha : a ∈ hmacAlgs <;> by_cases he : e' ≤ now <;> simp [ha, he]
  · intro hlt
    rw [verifyToken_true_iff]
    refine ⟨_, rfl, by simp [hmacAlgs], rfl, ?_⟩
    intro e' he'
    simp only [Option.some.injEq] at he'
    omega

theorem payload_noninterference_witness :
    Auth.verifyToken
      (.token ⟨.HS256, ⟨[], 0, some 1⟩, some ⟨.HS256, "k", ⟨[], 0, some 1⟩⟩⟩) "k" 0 = true := by
  have h := payload_noninterference [] [] 0 0 none .HS256 "k" 0 1
  exact h.2 (by omega)

/-- C4 as stated fails on `src/src/utils/auth.ts`: its `verifyToken` passes no
`algorithms` option, so `jsonwebtoken` accepts the whole HMAC family for the
string secret — an HS384-signed unexpired token under the configured key
verifies as true, where the claim requires false for any algorithm other than
HS256. -/
theorem alg_pinning_counterexample :
    Auth.verifyToken
      (.token ⟨.HS384, ⟨[], 0, some 1⟩, some ⟨.HS384, Auth.defaultSecret, ⟨[], 0, some 1⟩⟩⟩)
      Auth.defaultSecret 0 = true := by decide

/-- C4 (amended): the documented variant (`src/unnamed/part_000`) pins the
algorithm list to HS256 on verification and rejects every token with any
other header algorithm, including "none"; the plain variant
(`src/src/utils/auth.ts`) does not pin, so it rejects "none" and the
non-HMAC algorithms but accepts any HMAC-SHA-2 family algorithm (HS256,
HS384, HS512) under the configured key; the issue path of both variants
signs with HS256. -/
theorem alg_pinning (t : Jwt) (secret : String) (now : Nat)
    (c : List (String × String)) (T : Nat) :
    (t.alg ≠ .HS256 → AuthDoc.verifyToken (.token t) secret now = false) ∧
    (t.alg ∉ hmacAlgs → Auth.verifyToken (.token t) secret now = false) ∧
    (Auth.generateToken c secret T).algOf = some .HS256 ∧
    (AuthDoc.generateToken c secret T).algOf = some .HS256 := by
  refine ⟨fun h => ?_, fun h => ?_, rfl, rfl⟩
  · rw [Bool.eq_false_iff]
    intro htrue
    obtain ⟨t', ht', hmem, -, -⟩ := (verifyTokenDoc_true_iff _ _ _).mp htrue
    injection ht' with ht'
    subst ht'
    simp only [List.mem_singleton] at hmem
    exact h hmem
  · rw [Bool.eq_false_iff]
    intro htrue
    obtain ⟨t', ht', hmem, -, -⟩ := (verifyToken_true_iff _ _ _).mp htrue
    injection ht' with ht'
    subst ht'
    exact h hmem

theorem alg_pinning_witness :
    AuthDoc.verifyToken (.token ⟨.noAlg, ⟨[], 0, some 1⟩, none⟩) "k" 0 = false ∧
    Auth.verifyToken (.token ⟨.noAlg, ⟨[], 0, some 1⟩, none⟩) "k" 0 = false ∧
    (Auth.generateToken [] "k" 0).algOf = some .HS256 ∧
    (AuthDoc.generateToken [] "k" 0).algOf = some .HS256 := by
  have h := alg_pinning ⟨.noAlg, ⟨[], 0, some 1⟩, none⟩ "k" 0 [] 0
  exact ⟨h.1 (by decide), h.2.1 (by decide), h.2.2.1, h.2.2.2⟩

/-- C6: Password comparison is exact: `authenticatePassword s` is true
exactly when `s` equals the configured shared secret character for character
— string equality, case-sensitive, with no trimming and no hashing. -/
theorem authenticatePassword_exact (s configured : String) :
    Auth.authenticatePassword s configured = true ↔ s = configured := by
  simp [Auth.authenticatePassword]

/-- C5: RouteGate decision procedure: a request whose path is not under the
protected prefix is forwarded with the cookie untouched; a protected request
with no `auth-token` cookie redirects to `/login` deleting nothing; a
protected request whose cookie fails `verifyToken` has the cookie deleted and
is redirected to `/login` (in this embedding `verifyToken` is total, so the
defensive catch branch of the source coincides with the returns-false case);
a protected request whose cookie verifies is forwarded with the cookie
untouched. -/
theorem gate_decision (path : String) (tok : TokenString) (secret : String) (now : Nat) :
    (strStartsWith path "/projects/" = false →
      ∀ cookie, onRequest path cookie secret now = ⟨.forward, false⟩) ∧
    (strStartsWith path "/projects/" = true →
      onRequest path none secret now = ⟨.redirect "/login", false⟩) ∧
    (strStartsWith path "/projects/" = true → Auth.verifyToken tok secret now = false →
      onRequest path (some tok) secret now = ⟨.redirect "/login", true⟩) ∧
    (strStartsWith path "/projects/" = true → Auth.verifyToken tok secret now = true →
      onRequest path (some tok) secret now = ⟨.forward, false⟩) :=
  ⟨fun h _ => by simp [onRequest, h], fun h => by simp [onRequest, h],
    fun h hv => by simp [onRequest, h, hv], fun h hv => by simp [onRequest, h, hv]⟩

theorem gate_decision_witness :
    onRequest "/about" (some (.malformed "x")) "k" 0 = ⟨.forward, false⟩ ∧
    onRequest "/projects/x" none "k" 0 = ⟨.redirect "/login", false⟩ ∧
    onRequest "/projects/x" (some (.malformed "")) "k" 0 = ⟨.redirect "/login", true⟩ ∧
    onRequest "/projects/x" (some (Auth.generateToken [] "k" 0)) "k" 0 = ⟨.forward, false⟩ := by
  have h1 := gate_decision "/about" (.malformed "x") "k" 0
  have h2 := gate_decision "/projects/x" (.malformed "") "k" 0
  have h3 := gate_decision "/projects/x" (Auth.generateToken [] "k" 0) "k" 0
  exact ⟨h1.1 (by decide) _, h2.2.1 (by decide), h2.2.2.1 (by decide) (by decide),
    h3.2.2.2 (by decide) (by decide)⟩

/-- C9: Implicit protected-path boundary: the gate matches the literal
protected path with its trailing slash, so the exact path `/projects` and
extensions of the word without the slash such as `/projectsX` are treated as
unprotected and forwarded untouched, whatever cookie (or none) the request
carries — no credential check happens on them. -/
theorem gate_path_boundary (cookie : Option TokenString) (secret : String) (now : Nat) :
    onRequest "/projects" cookie secret now = ⟨.forward, false⟩ ∧
    onRequest "/projectsX" cookie secret now = ⟨.forward, false⟩ ∧
    strStartsWith "/projects" "/projects/" = false ∧
    strStartsWith "/projectsX" "/projects/" = false := by
  have h1 : strStartsWith "/projects" "/projects/" = false := by decide
  have h2 : strStartsWith "/projectsX" "/projects/" = false := by decide
  exact ⟨by simp [onRequest, h1], by simp [onRequest, h2], h1, h2⟩

/-- C7 as stated fails: a POST carrying a `password` field that is present
but the empty string — a password not equal to the configured secret
`admin123` — yields 400 (the handler tests JavaScript truthiness before
comparing), where the claim requires 401. -/
theorem login_status_counterexample :
    ("" : String) ≠ "admin123" ∧
    handler "POST" (.object (some (.str ""))) "admin123" Auth.defaultSecret 0 = ⟨400, none⟩ ∧
    (handler "POST" (.object (some (.str ""))) "admin123" Auth.defaultSecret 0).statusCode
      ≠ 401 := by
  exact ⟨by decide, by decide, by decide⟩

/-- C7 (amended): login endpoint status contract: a non-POST method yields
405; a POST whose `password` field is absent, or present with a falsy value
(empty string, zero, false, null), yields 400; a POST with a truthy password
that is not the configured secret yields 401 with no credential issued (a
truthy non-string JSON value is never strictly equal to the secret); a POST
with the correct (necessarily nonempty) secret yields 200 carrying a fresh
credential that passes verification; a fault thrown while parsing the body
yields 500. -/
theorem login_status_contract (cfg secret : String) (now : Nat) :
    (∀ m b, m ≠ "POST" → handler m b cfg secret now = ⟨405, none⟩) ∧
    (handler "POST" (.object none) cfg secret now = ⟨400, none⟩) ∧
    (∀ pw, jsTruthy pw = false →
      handler "POST" (.object (some pw)) cfg secret now = ⟨400, none⟩) ∧
    (∀ s, s ≠ "" → s ≠ cfg →
      handler "POST" (.object (some (.str s))) cfg secret now = ⟨401, none⟩) ∧
    (∀ pw, (∀ s, pw ≠ .str s) → jsTruthy pw = true →
      handler "POST" (.object (some pw)) cfg secret now = ⟨401, none⟩) ∧
    (cfg ≠ "" →
      handler "POST" (.object (some (.str cfg))) cfg secret now
        = ⟨200, some (Auth.createAuthToken secret now)⟩ ∧
      Auth.verifyToken (Auth.createAuthToken secret now) secret now = true) ∧
    (handler "POST" .parseError cfg secret now = ⟨500, none⟩) := by
  refine ⟨fun m b h => by simp [handler, h], by simp [handler, jsTruthy],
    fun pw h => by simp [handler, h], fun s h1 h2 => ?_, fun pw hns h => ?_,
    fun hcfg => ⟨?_, ?_⟩, by simp [handler]⟩
  · simp [handler, jsTruthy, h1, Auth.authenticatePassword, h2]
  · cases pw with
    | null => simp [jsTruthy] at h
    | bool b => cases b <;> simp_all [handler, jsTruthy]
    | num n => simp [jsTruthy] at h; simp [handler, jsTruthy, h]
    | str s => exact absurd rfl (hns s)
  · simp [handler, jsTruthy, hcfg, Auth.authenticatePassword]
  · exact (verifyToken_generateToken_true_iff _ secret now now).mpr (by omega)

theorem login_status_contract_witness :
    handler "GET" (.object none) "admin123" "k" 0 = ⟨405, none⟩ ∧
    handler "POST" (.object (some (.str ""))) "admin123" "k" 0 = ⟨400, none⟩ ∧
    handler "POST" (.object (some (.str "x"))) "admin123" "k" 0 = ⟨401, none⟩ ∧
    handler "POST" (.object (some (.num 1))) "admin123" "k" 0 = ⟨401, none⟩ ∧
    handler "POST" (.object (some (.str "admin123"))) "admin123" "k" 0
      = ⟨200, some (Auth.createAuthToken "k" 0)⟩ ∧
    Auth.verifyToken (Auth.createAuthToken "k" 0) "k" 0 = true := by
  have h := login_status_contract "admin123" "k" 0
  refine ⟨h.1 "GET" _ (by decide), h.2.2.1 _ (by decide),
    h.2.2.2.1 "x" (by decide) (by decide),
    h.2.2.2.2.1 (.num 1) (fun s hs => JsonValue.noConfusion hs) (by decide),
    (h.2.2.2.2.2.1 (by decide)).1, (h.2.2.2.2.2.1 (by decide)).2⟩

/-- C8 as stated fails: a POST whose body does not parse as JSON resolves to
500 — the `JSON.parse` exception falls to the handler's generic catch arm —
where the claim requires 400. -/
theorem malformed_request_counterexample :
    handler "POST" (parseBody (some "not json") (fun _ => .parseError)) "admin123"
      Auth.defaultSecret 0 = ⟨500, none⟩ ∧
    (handler "POST" (parseBody (some "not json") (fun _ => .parseError)) "admin123"
      Auth.defaultSecret 0).statusCode ≠ 400 := by
  exact ⟨by decide, by decide⟩

/-- C8 (amended): a POST whose body is missing (or the empty string) resolves
to 400: the body defaults to the empty object literal, whose parse carries no
`password` field.  A POST whose body is present but unparseable resolves to
500 through the handler's generic fault path. -/
theorem malformed_request (cfg secret : String) (now : Nat)
    (parseOf : String → ParsedBody) (s : String) :
    (handler "POST" (parseBody none parseOf) cfg secret now = ⟨400, none⟩) ∧
    (s ≠ "" → parseOf s = .parseError →
      handler "POST" (parseBody (some s) parseOf) cfg secret now = ⟨500, none⟩) := by
  constructor
  · simp [handler, parseBody, jsTruthy]
  · intro hs hp
    simp [handler, parseBody, hs, hp]

theorem malformed_request_witness :
    handler "POST" (parseBody none (fun _ => .parseError)) "admin123" "k" 0 = ⟨400, none⟩ ∧
    handler "POST" (parseBody (some "oops") (fun _ => .parseError)) "admin123" "k" 0
      = ⟨500, none⟩ := by
  have h := malformed_request "admin123" "k" 0 (fun _ => .parseError) "oops"
  exact ⟨h.1, h.2 (by decide) rfl⟩

end AuthAstro
